import Mathlib

/-!
# GPA computation and classification engine — verification development

Shallow embedding of the GPA core of `src/app.py` (the `calculate` route,
the `apply_reference` helper, the module-level grade tables, and the
`calculate_final_gpa` route), together with theorems settling the frozen
claims about the natural-language specification.

Modelling conventions:
* Python floats are modelled by `ℚ`.  All grade points are small integers,
  so sums and products are exact; the only inexact operation is the final
  `round(x, 2)`, modelled by `round2` below using Python's round-half-to-even
  rule applied to the exact rational value.
* A Python dict access `m['grade']` that may raise `KeyError`, a
  `list.index` that may raise `ValueError`, and a `GRADE_POINTS[g]` lookup
  that may raise `KeyError` are modelled with `Option`; the surrounding
  `try/except` of the route turns any raised exception into the generic
  error response (`SemOutcome.calcError` below).
* A module entry is a JSON object; `grade : Option String` is `none` when
  the `'grade'` key is absent, `reference : Option Bool` is `none` when the
  `'reference'` key is absent (Python `m.get('reference', False)` then
  yields `False`).  Non-string grade values and non-boolean reference
  values behave, for every claim considered here, like an out-of-set grade
  string respectively like their truthiness, and are not modelled further.
-/

section GpaEngine

/- Batteries marks the arithmetic on `Rat` `@[irreducible]`; the kernel
ignores reducibility, but `decide` needs the elaborator to reduce, so the
rational operations are made semireducible for this development. -/
set_option allowUnsafeReducibility true
attribute [local semireducible] Rat.mul Rat.add Rat.sub Rat.inv Rat.ofScientific

/-- Python `round(x, 0)` on the exact rational value: round half to even. -/
def pyRound (x : ℚ) : ℤ :=
  let f := ⌊x⌋
  let r := x - f
  if r < 1/2 then f
  else if 1/2 < r then f + 1
  else if f % 2 = 0 then f else f + 1

/-- Python `round(x, 2)` on the exact rational value. -/
def round2 (x : ℚ) : ℚ := (pyRound (x * 100) : ℚ) / 100

/-- Python's `str`/f-string rendering of a float that is a non-negative
multiple of `1/100` (every GPA the engine produces is of this form):
`5` prints as `"5.0"`, `39/10` as `"3.9"`, `433/100` as `"4.33"`. -/
def formatGpa (q : ℚ) : String :=
  let n : ℕ := (q * 100).num.toNat
  let whole := n / 100
  let frac := n % 100
  if frac = 0 then toString whole ++ ".0"
  else if frac % 10 = 0 then toString whole ++ "." ++ toString (frac / 10)
  else if frac < 10 then toString whole ++ ".0" ++ toString frac
  else toString whole ++ "." ++ toString frac

/-! ## GPA calculation constants (`app.py`, module level) -/

/-- `GRADE_POINTS = {'A': 5.0, 'B': 4.0, 'C': 3.0, 'D': 2.0, 'E': 1.0, 'F': 0.0}`;
a key outside the table raises `KeyError`, modelled by `none`. -/
def GRADE_POINTS : String → Option ℚ
  | "A" => some 5
  | "B" => some 4
  | "C" => some 3
  | "D" => some 2
  | "E" => some 1
  | "F" => some 0
  | _ => none

/-- `GRADE_ORDER = ['A', 'B', 'C', 'D', 'E', 'F']` -/
def GRADE_ORDER : List String := ["A", "B", "C", "D", "E", "F"]

/-- `CREDIT = 3` -/
def CREDIT : ℕ := 3

/-- `apply_reference(grade, is_ref)`.  `GRADE_ORDER.index(grade)` raises
`ValueError` when `grade` is not in the list, modelled by `none`;
`min(idx + 1, len(GRADE_ORDER) - 1)` keeps the index in range, so the
`List.getD` default is never used. -/
def apply_reference (grade : String) (is_ref : Bool) : Option String :=
  if !is_ref then some grade
  else
    match GRADE_ORDER.findIdx? (fun g => g == grade) with
    | none => none
    | some idx =>
        some (GRADE_ORDER.getD (min (idx + 1) (GRADE_ORDER.length - 1)) "")

/-! ## Data model of the `calculate` route -/

/-- One element of the posted `modules` list, as a JSON object.
`grade = none` models a missing `'grade'` key; `reference = none` models a
missing `'reference'` key; `code = none` models a missing `'code'` key
(Python `m.get('code', '')` then yields `''`); `label = none` models a
missing `'label'` key (Python `m.get('label')` then yields `None`). -/
structure RawModule where
  label : Option String
  code : Option String
  grade : Option String
  reference : Option Bool
deriving DecidableEq

/-- One element of the `details` list built by the `calculate` route. -/
structure ModuleResult where
  label : Option String
  code : String
  grade_before : String
  grade_after : String
  points : ℚ
  reference : Bool
deriving DecidableEq

/-- The JSON response of the `calculate` route:
`.blocked` is the E/F policy response (`blocked=true` with a `reason`),
`.calcError` the `except`-clause response (`blocked=true`, no reason, a
`Calculation error: ...` message), `.ok` the success response. -/
inductive SemOutcome
  | blocked (reason : String) (message : String)
  | calcError
  | ok (gpa : ℚ) (status : String) (details : List ModuleResult) (message : String)
deriving DecidableEq

/-- The `blocked` field of the JSON response (`true` on both the policy
block and the error path of the route). -/
def SemOutcome.blockedFlag : SemOutcome → Bool
  | SemOutcome.ok _ _ _ _ => false
  | _ => true

/-- The `reason` field of the JSON response, when present. -/
def SemOutcome.reasonOf : SemOutcome → Option String
  | SemOutcome.blocked r _ => some r
  | _ => none

/-- The `gpa` field of the JSON response, when present. -/
def SemOutcome.gpaOf : SemOutcome → Option ℚ
  | SemOutcome.ok g _ _ _ => some g
  | _ => none

/-- The `status` field of the JSON response, when present. -/
def SemOutcome.statusOf : SemOutcome → Option String
  | SemOutcome.ok _ s _ _ => some s
  | _ => none

/-- The `details` field of the JSON response, when present. -/
def SemOutcome.detailsOf : SemOutcome → Option (List ModuleResult)
  | SemOutcome.ok _ _ d _ => some d
  | _ => none

/-- The `message` field of the success response, when present. -/
def SemOutcome.messageOf : SemOutcome → Option String
  | SemOutcome.ok _ _ _ m => some m
  | _ => none

/-- Whether the outcome is the `except`-clause error response. -/
def SemOutcome.isCalcError : SemOutcome → Bool
  | SemOutcome.calcError => true
  | _ => false

/-! ## The `calculate` route -/

/-- Result of the first loop of `calculate`
(`for m in modules: if m['grade'] in ('E', 'F'): return ...`). -/
inductive GateResult
  | passed
  | hitEF
  | keyError
deriving DecidableEq

/-- The first loop of `calculate`: accessing `m['grade']` on an entry
without a `'grade'` key raises `KeyError` (caught by the route's
`except`); a grade equal to `'E'` or `'F'` returns the blocked response
immediately. -/
def gateLoop : List RawModule → GateResult
  | [] => GateResult.passed
  | m :: rest =>
    match m.grade with
    | none => GateResult.keyError
    | some g =>
        if g = "E" ∨ g = "F" then GateResult.hitEF
        else gateLoop rest

/-- The second loop of `calculate`, carrying the running
`total_points`, `total_credits` and `details` exactly as the source does;
`none` models an exception raised inside the loop body. -/
def scoreLoop : List RawModule → ℚ → ℕ → List ModuleResult →
    Option (ℚ × ℕ × List ModuleResult)
  | [], total_points, total_credits, details =>
      some (total_points, total_credits, details)
  | m :: rest, total_points, total_credits, details =>
    match m.grade with
    | none => none
    | some grade_before =>
      match apply_reference grade_before (m.reference.getD false) with
      | none => none
      | some grade_after =>
        match GRADE_POINTS grade_after with
        | none => none
        | some points =>
            scoreLoop rest (total_points + points * CREDIT)
              (total_credits + CREDIT)
              (details ++ [{ label := m.label, code := m.code.getD "",
                             grade_before := grade_before,
                             grade_after := grade_after,
                             points := points,
                             reference := m.reference.getD false }])

/-- The `if gpa >= 4.0: ... elif ... else` chain assigning `status` in
`calculate`. -/
def semStatus (gpa : ℚ) : String :=
  if gpa ≥ 4 then "Excellent Pass"
  else if gpa ≥ 3 then "Pass"
  else if gpa ≥ 27/10 then "Fail"
  else "Withdrew"

/-- The body of the `calculate` route on a well-typed `modules` list. -/
def calculate (modules : List RawModule) : SemOutcome :=
  match gateLoop modules with
  | GateResult.keyError => SemOutcome.calcError
  | GateResult.hitEF =>
      SemOutcome.blocked "E_or_F_present"
        "Calculation disabled: E or F present. Please contact your faculty."
  | GateResult.passed =>
    match scoreLoop modules 0 0 [] with
    | none => SemOutcome.calcError
    | some (total_points, total_credits, details) =>
        let gpa := if total_credits ≠ 0
          then round2 (total_points / (total_credits : ℚ)) else 0
        let status := semStatus gpa
        SemOutcome.ok gpa status details
          ("Your semester GPA is " ++ formatGpa gpa ++ " --- " ++ status ++ ".")

/-- The possible shapes of the posted `modules` JSON value, as seen by
`for m in modules`:
* `vlist`: a JSON array of objects (the intended shape);
* `vstr s`: a JSON string — iteration yields its one-character substrings,
  and `m['grade']` on such a substring raises `TypeError`;
* `vdict ks`: a JSON object — iteration yields its keys (strings), and
  `m['grade']` on a string raises `TypeError`;
* `vscalar`: a number, boolean or `null` — `for m in modules` itself
  raises `TypeError`.
In every raising case the route's `except` clause produces the error
response; an empty string or empty object iterates zero times in both
loops, which is exactly the behaviour of `calculate []`. -/
inductive ModulesValue
  | vlist (ms : List RawModule)
  | vstr (s : String)
  | vdict (keys : List String)
  | vscalar
deriving DecidableEq

/-- The `calculate` route on an arbitrary `modules` JSON value. -/
def calculate_route : ModulesValue → SemOutcome
  | ModulesValue.vlist ms => calculate ms
  | ModulesValue.vstr s =>
      if s.length = 0 then calculate [] else SemOutcome.calcError
  | ModulesValue.vdict keys =>
      if keys = [] then calculate [] else SemOutcome.calcError
  | ModulesValue.vscalar => SemOutcome.calcError

/-! ## The `calculate_final_gpa` route (core part, after the two record
lookups that are external collaborators) -/

/-- The JSON success response of `calculate_final_gpa`. -/
structure FinalResult where
  first_gpa : ℚ
  second_gpa : ℚ
  final_gpa : ℚ
  status : String
  message : String
deriving DecidableEq

/-- The `if final_gpa >= 4.0: ... elif ... else` chain assigning `status`
in `calculate_final_gpa` (textually duplicated from `calculate` in the
source). -/
def finalStatus (final_gpa : ℚ) : String :=
  if final_gpa ≥ 4 then "Excellent Pass"
  else if final_gpa ≥ 3 then "Pass"
  else if final_gpa ≥ 27/10 then "Fail"
  else "Withdrew"

/-- The core of the `calculate_final_gpa` route, given the two GPA values
resolved from the two saved records. -/
def calculate_final_gpa (first_gpa second_gpa : ℚ) : FinalResult :=
  let final_gpa := round2 ((first_gpa + second_gpa) / 2)
  let status := finalStatus final_gpa
  { first_gpa := first_gpa, second_gpa := second_gpa,
    final_gpa := final_gpa, status := status,
    message := "Final GPA: " ++ formatGpa final_gpa ++ " - " ++ status }

/-! ## Specification-side definitions

These follow the wording of the specification (escalation order written
out grade by grade, the fixed point table, per-module results built by a
`map`, totals built by a `sum`); the refinement theorems below compare
them with the source-translated definitions above. -/

/-- The escalation order `A→B→C→D→E→F` of the spec, `F` a fixed point. -/
def nextGradeSpec : String → String
  | "A" => "B"
  | "B" => "C"
  | "C" => "D"
  | "D" => "E"
  | "E" => "F"
  | _ => "F"

/-- The spec's fixed point table `A=5.0, B=4.0, C=3.0, D=2.0, E=1.0, F=0.0`
(total, with an arbitrary value outside the grade set). -/
def gradePointsTable : String → ℚ
  | "A" => 5
  | "B" => 4
  | "C" => 3
  | "D" => 2
  | "E" => 1
  | _ => 0

/-- The spec's effective grade: unchanged without the reference flag, the
next grade in the escalation order with it. -/
def specEffective (g : String) (is_ref : Bool) : String :=
  if is_ref then nextGradeSpec g else g

/-- The spec's ModuleResult for one entry: `label`, `code`, `reference`
copied, `grade_before` the submitted grade, `grade_after` the effective
grade, `points` its table value. -/
def moduleResultSpec (m : RawModule) : ModuleResult :=
  let gb := m.grade.getD ""
  let r := m.reference.getD false
  let ga := specEffective gb r
  { label := m.label, code := m.code.getD "", grade_before := gb,
    grade_after := ga, points := gradePointsTable ga, reference := r }

/-- The spec's `points_total`: the sum over the modules of `points * 3`. -/
def pointsTotalSpec (ms : List RawModule) : ℚ :=
  (ms.map (fun m => (moduleResultSpec m).points * 3)).sum

/-- The spec's `credits_total`: `3` per module. -/
def creditsTotalSpec (ms : List RawModule) : ℕ := 3 * ms.length

/-- An entry whose `'grade'` key is present with a value in the fixed
grade set (the well-formedness precondition of the spec). -/
def validGrade (m : RawModule) : Prop :=
  ∃ g, m.grade = some g ∧ g ∈ GRADE_ORDER

/-- An entry whose submitted grade lies in `{A, B, C, D}` (the grades that
pass the E/F gate). -/
def gradeABCD (m : RawModule) : Prop :=
  m.grade = some "A" ∨ m.grade = some "B" ∨ m.grade = some "C" ∨
    m.grade = some "D"

instance (m : RawModule) : Decidable (validGrade m) := by
  unfold validGrade
  rcases m.grade with _ | g
  · exact isFalse (by simp)
  · exact decidable_of_iff (g ∈ GRADE_ORDER) (by simp)

instance (m : RawModule) : Decidable (gradeABCD m) := by
  unfold gradeABCD
  infer_instance

/-! ## Concrete inputs used in witnesses -/

/-- The entry `{'grade': 'A'}`. -/
def moduleA : RawModule :=
  { label := none, code := none, grade := some "A", reference := none }

/-- The entry `{'grade': 'C'}`. -/
def moduleC : RawModule :=
  { label := none, code := none, grade := some "C", reference := none }

/-- The entry `{'grade': 'D', 'reference': true}`. -/
def moduleDref : RawModule :=
  { label := none, code := none, grade := some "D", reference := some true }

/-- The entry `{'grade': 'E'}`. -/
def moduleE : RawModule :=
  { label := none, code := none, grade := some "E", reference := none }

/-! ## Helper lemmas -/

theorem mem_GRADE_ORDER_iff {g : String} :
    g ∈ GRADE_ORDER ↔
      g = "A" ∨ g = "B" ∨ g = "C" ∨ g = "D" ∨ g = "E" ∨ g = "F" := by
  simp [GRADE_ORDER]

theorem apply_reference_eq {g : String} (hg : g ∈ GRADE_ORDER) (r : Bool) :
    apply_reference g r = some (specEffective g r) := by
  rcases mem_GRADE_ORDER_iff.mp hg with h | h | h | h | h | h <;> subst h <;>
    cases r <;> decide

theorem specEffective_mem {g : String} (hg : g ∈ GRADE_ORDER) (r : Bool) :
    specEffective g r ∈ GRADE_ORDER := by
  rcases mem_GRADE_ORDER_iff.mp hg with h | h | h | h | h | h <;> subst h <;>
    cases r <;> decide

theorem GRADE_POINTS_eq {g : String} (hg : g ∈ GRADE_ORDER) :
    GRADE_POINTS g = some (gradePointsTable g) := by
  rcases mem_GRADE_ORDER_iff.mp hg with h | h | h | h | h | h <;> subst h <;> decide

theorem GRADE_POINTS_eq_none {g : String} (hg : g ∉ GRADE_ORDER) :
    GRADE_POINTS g = none := by
  unfold GRADE_POINTS
  split
  · exact absurd (by simp [GRADE_ORDER]) hg
  · exact absurd (by simp [GRADE_ORDER]) hg
  · exact absurd (by simp [GRADE_ORDER]) hg
  · exact absurd (by simp [GRADE_ORDER]) hg
  · exact absurd (by simp [GRADE_ORDER]) hg
  · exact absurd (by simp [GRADE_ORDER]) hg
  · rfl

theorem apply_reference_none {g : String} (hg : g ∉ GRADE_ORDER) :
    apply_reference g true = none := by
  have hfind : GRADE_ORDER.findIdx? (fun x => x == g) = none := by
    rw [List.findIdx?_eq_none_iff]
    intro x hx
    simp only [beq_eq_false_iff_ne, ne_eq]
    intro hxg
    exact hg (hxg ▸ hx)
  simp [apply_reference, hfind]

theorem gradeABCD_valid {m : RawModule} (h : gradeABCD m) : validGrade m := by
  rcases h with h | h | h | h
  · exact ⟨"A", h, by decide⟩
  · exact ⟨"B", h, by decide⟩
  · exact ⟨"C", h, by decide⟩
  · exact ⟨"D", h, by decide⟩

theorem gateLoop_passed (ms : List RawModule)
    (h : ∀ m ∈ ms, ∃ g, m.grade = some g ∧ g ≠ "E" ∧ g ≠ "F") :
    gateLoop ms = GateResult.passed := by
  induction ms with
  | nil => rfl
  | cons m rest ih =>
    obtain ⟨g, hg, hE, hF⟩ := h m (by simp)
    simp only [gateLoop, hg]
    rw [if_neg (by simp [hE, hF])]
    exact ih fun m' hm' => h m' (List.mem_cons_of_mem _ hm')

theorem gradeABCD_not_EF {m : RawModule} (h : gradeABCD m) :
    ∃ g, m.grade = some g ∧ g ≠ "E" ∧ g ≠ "F" := by
  rcases h with h | h | h | h
  · exact ⟨"A", h, by decide, by decide⟩
  · exact ⟨"B", h, by decide, by decide⟩
  · exact ⟨"C", h, by decide, by decide⟩
  · exact ⟨"D", h, by decide, by decide⟩

theorem gateLoop_hitEF (ms : List RawModule)
    (hall : ∀ m ∈ ms, m.grade ≠ none)
    (hex : ∃ m ∈ ms, m.grade = some "E" ∨ m.grade = some "F") :
    gateLoop ms = GateResult.hitEF := by
  induction ms with
  | nil => simp at hex
  | cons m rest ih =>
    rcases hm : m.grade with _ | g
    · exact absurd hm (hall m (by simp))
    · simp only [gateLoop, hm]
      by_cases hEF : g = "E" ∨ g = "F"
      · rw [if_pos hEF]
      · rw [if_neg hEF]
        apply ih (fun m' hm' => hall m' (List.mem_cons_of_mem _ hm'))
        rcases hex with ⟨m', hm', hEF'⟩
        rcases List.mem_cons.mp hm' with rfl | hm'
        · rcases hEF' with h | h <;> rw [hm] at h <;>
            exact absurd (Option.some.inj h) (by rintro rfl; simp at hEF)
        · exact ⟨m', hm', hEF'⟩

theorem gateLoop_keyError (ms : List RawModule)
    (hall : ∀ m ∈ ms, m.grade ≠ some "E" ∧ m.grade ≠ some "F")
    (hex : ∃ m ∈ ms, m.grade = none) :
    gateLoop ms = GateResult.keyError := by
  induction ms with
  | nil => simp at hex
  | cons m rest ih =>
    rcases hm : m.grade with _ | g
    · simp only [gateLoop, hm]
    · simp only [gateLoop, hm]
      have hnEF : ¬(g = "E" ∨ g = "F") := by
        rintro (rfl | rfl)
        · exact absurd hm (hall m (by simp)).1
        · exact absurd hm (hall m (by simp)).2
      rw [if_neg hnEF]
      apply ih (fun m' hm' => hall m' (List.mem_cons_of_mem _ hm'))
      rcases hex with ⟨m', hm', hnone⟩
      rcases List.mem_cons.mp hm' with rfl | hm'
      · rw [hm] at hnone; exact absurd hnone (by simp)
      · exact ⟨m', hm', hnone⟩

theorem moduleResultSpec_eq {m : RawModule} {g : String} (hg : m.grade = some g) :
    moduleResultSpec m =
      { label := m.label, code := m.code.getD "", grade_before := g,
        grade_after := specEffective g (m.reference.getD false),
        points := gradePointsTable (specEffective g (m.reference.getD false)),
        reference := m.reference.getD false } := by
  simp [moduleResultSpec, hg]

theorem scoreLoop_eq_of_valid (ms : List RawModule)
    (h : ∀ m ∈ ms, validGrade m) :
    ∀ (tp : ℚ) (tc : ℕ) (acc : List ModuleResult),
    scoreLoop ms tp tc acc =
      some (tp + pointsTotalSpec ms, tc + creditsTotalSpec ms,
        acc ++ ms.map moduleResultSpec) := by
  induction ms with
  | nil =>
    intro tp tc acc
    simp [scoreLoop, pointsTotalSpec, creditsTotalSpec]
  | cons m rest ih =>
    intro tp tc acc
    obtain ⟨g, hg, hmem⟩ := h m (by simp)
    have heff := specEffective_mem hmem (m.reference.getD false)
    simp only [scoreLoop, hg, apply_reference_eq hmem, GRADE_POINTS_eq heff]
    rw [ih (fun m' hm' => h m' (List.mem_cons_of_mem _ hm'))]
    simp only [Option.some.injEq, Prod.mk.injEq]
    refine ⟨?_, ?_, ?_⟩
    · simp only [pointsTotalSpec, List.map_cons, List.sum_cons,
        moduleResultSpec_eq hg, CREDIT]
      push_cast
      ring
    · simp only [creditsTotalSpec, List.length_cons, CREDIT]
      omega
    · simp [List.map_cons, moduleResultSpec_eq hg]

theorem scoreLoop_none (ms : List RawModule)
    (hex : ∃ m ∈ ms, ∃ g, m.grade = some g ∧ g ∉ GRADE_ORDER) :
    ∀ (tp : ℚ) (tc : ℕ) (acc : List ModuleResult),
    scoreLoop ms tp tc acc = none := by
  induction ms with
  | nil => simp at hex
  | cons m rest ih =>
    intro tp tc acc
    rcases hm : m.grade with _ | g
    · simp [scoreLoop, hm]
    · by_cases hmem : g ∈ GRADE_ORDER
      · have heff := specEffective_mem hmem (m.reference.getD false)
        simp only [scoreLoop, hm, apply_reference_eq hmem, GRADE_POINTS_eq heff]
        apply ih
        rcases hex with ⟨m', hm', g', hg', hmem'⟩
        rcases List.mem_cons.mp hm' with rfl | hm'
        · rw [hm] at hg'
          exact absurd (Option.some.inj hg' ▸ hmem) hmem'
        · exact ⟨m', hm', g', hg', hmem'⟩
      · rcases hr : m.reference.getD false with _ | _
        · have : apply_reference g false = some g := rfl
          simp [scoreLoop, hm, hr, this, GRADE_POINTS_eq_none hmem]
        · simp [scoreLoop, hm, hr, apply_reference_none hmem]

theorem calculate_eq_of_ABCD (ms : List RawModule) (hne : ms ≠ [])
    (h : ∀ m ∈ ms, gradeABCD m) :
    calculate ms =
      SemOutcome.ok (round2 (pointsTotalSpec ms / (creditsTotalSpec ms : ℚ)))
        (semStatus (round2 (pointsTotalSpec ms / (creditsTotalSpec ms : ℚ))))
        (ms.map moduleResultSpec)
        ("Your semester GPA is " ++
            formatGpa (round2 (pointsTotalSpec ms / (creditsTotalSpec ms : ℚ))) ++
            " --- " ++
            semStatus (round2 (pointsTotalSpec ms / (creditsTotalSpec ms : ℚ))) ++
            ".") := by
  have hv : ∀ m ∈ ms, validGrade m := fun m hm => gradeABCD_valid (h m hm)
  have hcz : creditsTotalSpec ms ≠ 0 := by
    simp only [creditsTotalSpec]
    have : ms.length ≠ 0 := fun hl => hne (List.length_eq_zero.mp hl)
    omega
  unfold calculate
  rw [gateLoop_passed ms (fun m hm => gradeABCD_not_EF (h m hm)),
    scoreLoop_eq_of_valid ms hv 0 0 []]
  simp [hcz]

theorem calculate_ok_inv {ms : List RawModule} {g : ℚ} {s : String}
    {d : List ModuleResult} {msg : String}
    (h : calculate ms = SemOutcome.ok g s d msg) :
    s = semStatus g ∧
    msg = "Your semester GPA is " ++ formatGpa g ++ " --- " ++ s ++ "." := by
  unfold calculate at h
  rcases hg : gateLoop ms <;> rw [hg] at h
  · rcases hs : scoreLoop ms 0 0 [] with _ | ⟨tp, tc, det⟩ <;> rw [hs] at h
    · simp at h
    · simp only [SemOutcome.ok.injEq] at h
      obtain ⟨h1, h2, _, h4⟩ := h
      subst h1; subst h2
      exact ⟨rfl, h4.symm⟩
  · simp at h
  · simp at h

theorem semStatus_bands (g : ℚ) :
    (semStatus g = "Excellent Pass" ↔ 4 ≤ g) ∧
    (semStatus g = "Pass" ↔ 3 ≤ g ∧ g < 4) ∧
    (semStatus g = "Fail" ↔ 27/10 ≤ g ∧ g < 3) ∧
    (semStatus g = "Withdrew" ↔ g < 27/10) := by
  unfold semStatus
  split_ifs with h1 h2 h3 <;>
    refine ⟨?_, ?_, ?_, ?_⟩ <;> simp_all <;>
    first
      | linarith
      | (intros; linarith)

theorem finalStatus_eq_semStatus (q : ℚ) : finalStatus q = semStatus q := rfl

/-! ## The claims -/

/-- C1: for every module list containing at least one entry whose submitted
grade is `E` or `F` (all entries carrying a grade), `calculate` returns the
blocked outcome with `blocked=true` and reason `E_or_F_present`, regardless
of the other entries' grades or reference flags, and produces no GPA, no
status, and no ModuleResult list. -/
theorem gate_blocks_on_EF (ms : List RawModule)
    (hall : ∀ m ∈ ms, m.grade ≠ none)
    (hex : ∃ m ∈ ms, m.grade = some "E" ∨ m.grade = some "F") :
    calculate ms =
      SemOutcome.blocked "E_or_F_present"
        "Calculation disabled: E or F present. Please contact your faculty." ∧
    (calculate ms).blockedFlag = true ∧
    (calculate ms).reasonOf = some "E_or_F_present" ∧
    (calculate ms).gpaOf = none ∧
    (calculate ms).statusOf = none ∧
    (calculate ms).detailsOf = none := by
  have hb : calculate ms =
      SemOutcome.blocked "E_or_F_present"
        "Calculation disabled: E or F present. Please contact your faculty." := by
    unfold calculate
    rw [gateLoop_hitEF ms hall hex]
  rw [hb]
  exact ⟨rfl, rfl, rfl, rfl, rfl, rfl⟩

/-- Witness for C1: the list `[{'grade':'A'}, {'grade':'E'}]` is blocked. -/
theorem gate_blocks_on_EF_witness :
    (∀ m ∈ [moduleA, moduleE], m.grade ≠ none) ∧
    (∃ m ∈ [moduleA, moduleE], m.grade = some "E" ∨ m.grade = some "F") ∧
    calculate [moduleA, moduleE] =
      SemOutcome.blocked "E_or_F_present"
        "Calculation disabled: E or F present. Please contact your faculty." :=
  ⟨by decide, by decide,
    (gate_blocks_on_EF [moduleA, moduleE] (by decide) (by decide)).1⟩

/-- C2: on every non-empty module list whose submitted grades all lie in
`{A,B,C,D}`, `calculate` resolves each effective grade via the reference
adjustment, looks the points up in the fixed table, accumulates
`points_total += points * 3` and `credits_total += 3`, returns
`gpa = round(points_total / credits_total, 2)`, and returns one
ModuleResult per entry, in input order, with `label`, `code`, `reference`
copied, `grade_before` the submitted grade, `grade_after` the effective
grade and `points` its table value. -/
theorem normal_path_accumulation (ms : List RawModule) (hne : ms ≠ [])
    (h : ∀ m ∈ ms, gradeABCD m) :
    (calculate ms).gpaOf =
      some (round2 (pointsTotalSpec ms / (creditsTotalSpec ms : ℚ))) ∧
    (calculate ms).detailsOf = some (ms.map moduleResultSpec) ∧
    (calculate ms).blockedFlag = false := by
  rw [calculate_eq_of_ABCD ms hne h]
  exact ⟨rfl, rfl, rfl⟩

/-- Witness for C2: the singleton list `[{'grade':'C'}]`. -/
theorem normal_path_accumulation_witness :
    ([moduleC] ≠ []) ∧ (∀ m ∈ [moduleC], gradeABCD m) ∧
    ((calculate [moduleC]).gpaOf =
        some (round2 (pointsTotalSpec [moduleC] / (creditsTotalSpec [moduleC] : ℚ))) ∧
      (calculate [moduleC]).detailsOf = some ([moduleC].map moduleResultSpec) ∧
      (calculate [moduleC]).blockedFlag = false) :=
  ⟨by decide, by decide, normal_path_accumulation [moduleC] (by decide) (by decide)⟩

/-- C3: on every success outcome of `calculate`, the status is determined
by inclusive lower-bound bands on the rounded GPA: `Excellent Pass` iff
`gpa ≥ 4.0`, `Pass` iff `3.0 ≤ gpa < 4.0`, `Fail` iff `2.7 ≤ gpa < 3.0`,
`Withdrew` iff `gpa < 2.7`. -/
theorem status_bands_of_calculate (ms : List RawModule) (g : ℚ) (s : String)
    (d : List ModuleResult) (msg : String)
    (h : calculate ms = SemOutcome.ok g s d msg) :
    (s = "Excellent Pass" ↔ 4 ≤ g) ∧
    (s = "Pass" ↔ 3 ≤ g ∧ g < 4) ∧
    (s = "Fail" ↔ 27/10 ≤ g ∧ g < 3) ∧
    (s = "Withdrew" ↔ g < 27/10) := by
  rw [(calculate_ok_inv h).1]
  exact semStatus_bands g

/-- Witness for C3: `[{'grade':'C'}]` evaluates to gpa 3.0 with status
`Pass`, and the bands hold there. -/
theorem status_bands_of_calculate_witness :
    (calculate [moduleC] = SemOutcome.ok 3 "Pass"
        [{ label := none, code := "", grade_before := "C", grade_after := "C",
           points := 3, reference := false }]
        "Your semester GPA is 3.0 --- Pass.") ∧
    (("Pass" = "Excellent Pass" ↔ (4:ℚ) ≤ 3) ∧
      ("Pass" = "Pass" ↔ (3:ℚ) ≤ 3 ∧ (3:ℚ) < 4) ∧
      ("Pass" = "Fail" ↔ (27:ℚ)/10 ≤ 3 ∧ (3:ℚ) < 3) ∧
      ("Pass" = "Withdrew" ↔ (3:ℚ) < 27/10)) :=
  ⟨by decide,
    status_bands_of_calculate [moduleC] 3 "Pass"
      [{ label := none, code := "", grade_before := "C", grade_after := "C",
         points := 3, reference := false }]
      "Your semester GPA is 3.0 --- Pass." (by decide)⟩

/-- C4: for every grade in the fixed set, `apply_reference` returns the
grade unchanged without the reference flag and the next grade in the
escalation order `A→B→C→D→E→F` with it, `F` being a fixed point, and
`GRADE_POINTS` agrees with the fixed table
`A=5.0, B=4.0, C=3.0, D=2.0, E=1.0, F=0.0`. -/
theorem gradeResolver_contract (g : String) (hg : g ∈ GRADE_ORDER) :
    apply_reference g false = some g ∧
    apply_reference g true = some (nextGradeSpec g) ∧
    GRADE_POINTS g = some (gradePointsTable g) ∧
    apply_reference "A" true = some "B" ∧
    apply_reference "B" true = some "C" ∧
    apply_reference "C" true = some "D" ∧
    apply_reference "D" true = some "E" ∧
    apply_reference "E" true = some "F" ∧
    apply_reference "F" true = some "F" ∧
    gradePointsTable "A" = 5 ∧ gradePointsTable "B" = 4 ∧
    gradePointsTable "C" = 3 ∧ gradePointsTable "D" = 2 ∧
    gradePointsTable "E" = 1 ∧ gradePointsTable "F" = 0 := by
  refine ⟨rfl, apply_reference_eq hg true, GRADE_POINTS_eq hg, ?_⟩
  decide

/-- Witness for C4: the contract at grade `A`. -/
theorem gradeResolver_contract_witness :
    ("A" ∈ GRADE_ORDER) ∧
    (apply_reference "A" false = some "A" ∧
      apply_reference "A" true = some (nextGradeSpec "A") ∧
      GRADE_POINTS "A" = some (gradePointsTable "A") ∧
      apply_reference "A" true = some "B" ∧
      apply_reference "B" true = some "C" ∧
      apply_reference "C" true = some "D" ∧
      apply_reference "D" true = some "E" ∧
      apply_reference "E" true = some "F" ∧
      apply_reference "F" true = some "F" ∧
      gradePointsTable "A" = 5 ∧ gradePointsTable "B" = 4 ∧
      gradePointsTable "C" = 3 ∧ gradePointsTable "D" = 2 ∧
      gradePointsTable "E" = 1 ∧ gradePointsTable "F" = 0) :=
  ⟨by decide, gradeResolver_contract "A" (by decide)⟩

/-- C5: `calculate_final_gpa` returns
`final_gpa = round((first_gpa + second_gpa) / 2, 2)`, echoes both inputs,
classifies `final_gpa` with the same four bands as the semester evaluator
(it is total, with no gate logic), and on `(4.2, 3.6)` yields `3.9` with
status `Pass`. -/
theorem aggregateFinal_contract (g1 g2 : ℚ) :
    (calculate_final_gpa g1 g2).final_gpa = round2 ((g1 + g2) / 2) ∧
    (calculate_final_gpa g1 g2).first_gpa = g1 ∧
    (calculate_final_gpa g1 g2).second_gpa = g2 ∧
    (calculate_final_gpa g1 g2).status =
      semStatus ((calculate_final_gpa g1 g2).final_gpa) ∧
    (calculate_final_gpa (42/10) (36/10)).final_gpa = 39/10 ∧
    (calculate_final_gpa (42/10) (36/10)).status = "Pass" :=
  ⟨rfl, rfl, rfl, finalStatus_eq_semStatus _, by decide, by decide⟩

/-- C6: on every success outcome the message is exactly
`"Your semester GPA is {gpa} --- {status}."` with the computed values
substituted; for `[{'grade':'A'}, {'grade':'A'}]` it is exactly
`"Your semester GPA is 5.0 --- Excellent Pass."`. -/
theorem message_template (ms : List RawModule) (g : ℚ) (s : String)
    (d : List ModuleResult) (msg : String)
    (h : calculate ms = SemOutcome.ok g s d msg) :
    msg = "Your semester GPA is " ++ formatGpa g ++ " --- " ++ s ++ "." ∧
    (calculate [moduleA, moduleA]).messageOf =
      some "Your semester GPA is 5.0 --- Excellent Pass." :=
  ⟨(calculate_ok_inv h).2, by decide⟩

/-- Witness for C6: the message of `[{'grade':'A'}, {'grade':'A'}]`. -/
theorem message_template_witness :
    (calculate [moduleA, moduleA] = SemOutcome.ok 5 "Excellent Pass"
        [{ label := none, code := "", grade_before := "A", grade_after := "A",
           points := 5, reference := false },
         { label := none, code := "", grade_before := "A", grade_after := "A",
           points := 5, reference := false }]
        "Your semester GPA is 5.0 --- Excellent Pass.") ∧
    ("Your semester GPA is 5.0 --- Excellent Pass." =
        "Your semester GPA is " ++ formatGpa 5 ++ " --- " ++ "Excellent Pass" ++ "." ∧
      (calculate [moduleA, moduleA]).messageOf =
        some "Your semester GPA is 5.0 --- Excellent Pass.") :=
  ⟨by decide,
    message_template [moduleA, moduleA] 5 "Excellent Pass"
      [{ label := none, code := "", grade_before := "A", grade_after := "A",
         points := 5, reference := false },
       { label := none, code := "", grade_before := "A", grade_after := "A",
         points := 5, reference := false }]
      "Your semester GPA is 5.0 --- Excellent Pass." (by decide)⟩

/-- C7: the E/F gate inspects only the original submitted grades: a module
list whose submitted grades all lie in `{A,B,C,D}` is never blocked,
regardless of reference flags, and `{'grade':'D', 'reference': true}` is
scored with effective grade `E` and points `1.0` rather than blocked. -/
theorem gate_pre_adjustment (ms : List RawModule) (h : ∀ m ∈ ms, gradeABCD m) :
    (∃ g s d msg, calculate ms = SemOutcome.ok g s d msg) ∧
    (calculate ms).blockedFlag = false ∧
    calculate [moduleDref] =
      SemOutcome.ok 1 "Withdrew"
        [{ label := none, code := "", grade_before := "D", grade_after := "E",
           points := 1, reference := true }]
        "Your semester GPA is 1.0 --- Withdrew." := by
  have hok : ∃ g s d msg, calculate ms = SemOutcome.ok g s d msg := by
    rcases eq_or_ne ms [] with rfl | hne
    · exact ⟨0, "Withdrew", [], "Your semester GPA is 0.0 --- Withdrew.", by decide⟩
    · exact ⟨_, _, _, _, calculate_eq_of_ABCD ms hne h⟩
  obtain ⟨g, s, d, msg, hok'⟩ := hok
  refine ⟨⟨g, s, d, msg, hok'⟩, by rw [hok']; rfl, by decide⟩

/-- Witness for C7: the singleton list `[{'grade':'D', 'reference':true}]`. -/
theorem gate_pre_adjustment_witness :
    (∀ m ∈ [moduleDref], gradeABCD m) ∧
    ((∃ g s d msg, calculate [moduleDref] = SemOutcome.ok g s d msg) ∧
      (calculate [moduleDref]).blockedFlag = false ∧
      calculate [moduleDref] =
        SemOutcome.ok 1 "Withdrew"
          [{ label := none, code := "", grade_before := "D", grade_after := "E",
             points := 1, reference := true }]
          "Your semester GPA is 1.0 --- Withdrew.") :=
  ⟨by decide, gate_pre_adjustment [moduleDref] (by decide)⟩

/-- C8: on the empty module list `calculate` does not fail: it returns
gpa `0.0` (the `credits_total` guard takes the else branch), status
`Withdrew`, and an empty details list. -/
theorem empty_modules_defined :
    calculate [] =
      SemOutcome.ok 0 "Withdrew" [] "Your semester GPA is 0.0 --- Withdrew." ∧
    (calculate []).gpaOf = some 0 ∧
    (calculate []).statusOf = some "Withdrew" ∧
    (calculate []).detailsOf = some [] := by
  decide

/-- Counterexample to C9 as stated: the non-list modules value `""` (an
empty JSON string) is not reported as a computation error — the route runs
both loops zero times and returns the full empty-list success result. -/
theorem malformed_empty_string_not_error :
    calculate_route (ModulesValue.vstr "") =
      SemOutcome.ok 0 "Withdrew" [] "Your semester GPA is 0.0 --- Withdrew." ∧
    (calculate_route (ModulesValue.vstr "")).isCalcError = false ∧
    (calculate_route (ModulesValue.vstr "")).blockedFlag = false := by
  decide

/-- C9 (amended): a missing grade (no E/F gating first) and a grade outside
the fixed set (no E/F present) are reported as computation errors; a
non-list modules value is reported as a computation error except for the
empty string and the empty object, which produce the empty-list success
result; in every case either a full consistent result, a policy block, or
an error is produced — never a partial result. -/
theorem malformed_input_amended :
    (∀ ms : List RawModule,
        (∀ m ∈ ms, m.grade ≠ some "E" ∧ m.grade ≠ some "F") →
        (∃ m ∈ ms, m.grade = none) →
        calculate ms = SemOutcome.calcError) ∧
    (∀ ms : List RawModule,
        (∀ m ∈ ms, ∃ g, m.grade = some g ∧ g ≠ "E" ∧ g ≠ "F") →
        (∃ m ∈ ms, ∃ g, m.grade = some g ∧ g ∉ GRADE_ORDER) →
        calculate ms = SemOutcome.calcError) ∧
    (∀ s : String, s ≠ "" →
        calculate_route (ModulesValue.vstr s) = SemOutcome.calcError) ∧
    (∀ ks : List String, ks ≠ [] →
        calculate_route (ModulesValue.vdict ks) = SemOutcome.calcError) ∧
    calculate_route ModulesValue.vscalar = SemOutcome.calcError ∧
    (∀ v : ModulesValue,
        (∃ g s d msg, calculate_route v = SemOutcome.ok g s d msg) ∨
        (∃ r msg, calculate_route v = SemOutcome.blocked r msg) ∨
        calculate_route v = SemOutcome.calcError) := by
  refine ⟨?_, ?_, ?_, ?_, rfl, ?_⟩
  · intro ms hall hex
    unfold calculate
    rw [gateLoop_keyError ms hall hex]
  · intro ms hall hex
    unfold calculate
    rw [gateLoop_passed ms hall, scoreLoop_none ms hex]
  · intro s hs
    have hl : s.length ≠ 0 := by
      intro h
      apply hs
      cases s with
      | mk data =>
        rw [String.length_mk] at h
        rw [List.length_eq_zero.mp h]
    simp [calculate_route, hl]
  · intro ks hks
    simp [calculate_route, hks]
  · intro v
    rcases hv : calculate_route v with ⟨r, msg⟩ | _ | ⟨g, s, d, msg⟩
    · exact Or.inr (Or.inl ⟨r, msg, rfl⟩)
    · exact Or.inr (Or.inr rfl)
    · exact Or.inl ⟨g, s, d, msg, rfl⟩

/-- C10: `calculate_final_gpa` is commutative in its two GPA inputs: the
final GPA and the status agree, and the echoed inputs are swapped. -/
theorem aggregateFinal_commutative (g1 g2 : ℚ) :
    (calculate_final_gpa g1 g2).final_gpa = (calculate_final_gpa g2 g1).final_gpa ∧
    (calculate_final_gpa g1 g2).status = (calculate_final_gpa g2 g1).status ∧
    (calculate_final_gpa g1 g2).first_gpa = (calculate_final_gpa g2 g1).second_gpa ∧
    (calculate_final_gpa g1 g2).second_gpa = (calculate_final_gpa g2 g1).first_gpa := by
  refine ⟨?_, ?_, rfl, rfl⟩
  · show round2 ((g1 + g2) / 2) = round2 ((g2 + g1) / 2)
    rw [add_comm]
  · show finalStatus (round2 ((g1 + g2) / 2)) = finalStatus (round2 ((g2 + g1) / 2))
    rw [add_comm g1 g2]

end GpaEngine
